import Mathlib

/-!
# Verification of the MCP gateway core (src/mcp-server.ts)

Shallow embedding of the mode-dispatch core of the QuickBooks MCP server:
mode selection, middleware mounting under `/api`, the proxy `pathRewrite`
and `proxyReq` transforms, the `proxyRes` capture/stream handler together
with `captureExchange`, and the proxy `error` handler.

The contract validator and response synthesizer are provided by the external
`openapi-backend` package (not part of this repository's sources); where a
claim depends on their behaviour they are modelled from the spec, and each
such definition says so in its doc comment.
-/

namespace QbMcp

/-! ## Mode selection and middleware mounting (mcp-server.ts lines 40, 98, 154, 158-162) -/

/-- ASCII lowercasing of a string, agreeing with JavaScript
`String.toLowerCase` on ASCII strings (`Char.toLower` maps only `A`-`Z`);
on non-ASCII input the two can differ, so general statements over
environment values restrict themselves to ASCII strings. -/
def strToLower (s : String) : String := String.mk (s.data.map Char.toLower)

/-- Mode selection, `const MODE = (process.env.MCP_MODE || "mock").toLowerCase()`
(line 40). Here `none` models an unset `MCP_MODE` environment variable, and
the `||` default also applies to a set-but-empty value, `""` being falsy in
JavaScript. -/
def MODE (mcpModeEnv : Option String) : String :=
  strToLower
    (match mcpModeEnv with
     | none => "mock"
     | some s => if s = "" then "mock" else s)

/-- The two components that can answer an `/api` request. -/
inductive Handler where
  | forwarder
  | synthesizer
deriving DecidableEq, Repr

/-- Whether the proxy middleware (Upstream Forwarder) is mounted at `/api`:
the guard `if (MODE === "proxy" || MODE === "capture")` at line 98. -/
def mountForwarder (mode : String) : Bool := mode == "proxy" || mode == "capture"

/-- Whether the `api.handleRequest` middleware (Contract Validator plus
Response Synthesizer) is mounted at `/api`: the guard
`if (MODE === "mock" || MODE === "capture")` at line 158. -/
def mountSynthesizer (mode : String) : Bool := mode == "mock" || mode == "capture"

/-- The ordered Express middleware stack mounted at `/api`: the proxy
middleware is registered first (line 154), the mock handler second
(line 159). -/
def middlewareStack (mode : String) : List Handler :=
  (if mountForwarder mode then [Handler.forwarder] else []) ++
  (if mountSynthesizer mode then [Handler.synthesizer] else [])

/-- Which component answers an inbound `/api` request. Express runs mounted
middleware in registration order, and both the proxy middleware (it proxies
every request, never calling `next`) and `api.handleRequest` (it always
writes a response) consume the request, so the first mounted middleware
handles it; with none mounted, Express's default final handler answers. -/
def apiHandler (mode : String) : Option Handler := (middlewareStack mode).head?

/-! ## Upstream Forwarder request transforms (mcp-server.ts lines 99-112) -/

/-- Path rewrite for forwarded requests,
`pathRewrite: (pathStr) => pathStr.replace(/^\/api/, "")` (line 102):
remove a leading `/api` from the inbound path, anchored at the start. -/
def pathRewrite (pathStr : String) : String :=
  if "/api".data.isPrefixOf pathStr.data then
    String.mk (pathStr.data.drop "/api".data.length)
  else pathStr

/-- The `proxyReq` hook (lines 105-112): the guard `if (QBO_TOKEN)` at
line 110 is a JavaScript truthiness test, so an unset or set-but-empty
token skips `setHeader` and the caller's `Authorization` header, if any,
passes through untouched; a nonempty token is injected as `Bearer <token>`
(`setHeader` replaces any caller-supplied value). -/
def upstreamAuthorization (qboToken : Option String) (callerAuth : Option String) :
    Option String :=
  match qboToken with
  | some t => if t = "" then callerAuth else some ("Bearer " ++ t)
  | none => callerAuth

/-! ## Exchange Recorder (mcp-server.ts lines 79-95) -/

/-- The fields of the inbound Express request used by `captureExchange`. -/
structure CaptureReq where
  method : String
  originalUrl : String
  headers : List (String × String)
  body : String
deriving DecidableEq, Repr

/-- One line of the `captures.ndjson` log, as the structured record that
`JSON.stringify` serializes (lines 84-93). -/
structure ExchangeRecord where
  ts : String
  reqMethod : String
  reqUrl : String
  reqHeaders : List (String × String)
  reqBody : String
  resStatus : Nat
  resBody : String
deriving DecidableEq, Repr

/-- Embedding of `captureExchange(req, resBody, status)` (lines 79-95): build the record
that is appended to the capture log. `ts` is `new Date().toISOString()`,
taken as a parameter. The `fs.appendFileSync` side effect and its possible
failure are modelled in `proxyResHandler`. -/
def captureExchange (ts : String) (req : CaptureReq) (resBody : String)
    (status : Nat) : ExchangeRecord :=
  { ts := ts
    reqMethod := req.method
    reqUrl := req.originalUrl
    reqHeaders := req.headers
    reqBody := req.body
    resStatus := status
    resBody := resBody }

/-! ## Upstream Forwarder response handling (mcp-server.ts lines 113-133) -/

/-- Observable effects of the `proxyRes` handler, in execution order. -/
inductive RelayEvent where
  | append (rec : ExchangeRecord)
  | writeHead (status : Nat) (headers : List (String × String))
  | writeBody (body : String)
  | pipeUpstream
deriving DecidableEq, Repr

/-- The `proxyRes` hook (lines 113-133). In capture mode with a truthy
upstream status code, the upstream body chunks are buffered; on `end` the
concatenated body is recorded via `captureExchange` (an `fs.appendFileSync`
whose failure throws, modelled by `Except.error`, aborting the handler
before any response write) and then, if the caller's response is not yet
closed, the buffered status, headers and body are written.  Otherwise the
upstream response is streamed through (`pipe`) when the caller's response
is still open.  `statusCode || 500` / `statusCode || 0` keep the source's
truthiness coercions, with `0` standing for a falsy status code. -/
def proxyResHandler (mode : String) (ts : String) (inbound : CaptureReq)
    (upstreamStatus : Nat) (upstreamHeaders : List (String × String))
    (chunks : List String) (resClosed : Bool) (appendOk : Bool) :
    Except String (List RelayEvent) :=
  if mode = "capture" ∧ upstreamStatus ≠ 0 then
    let body := String.join chunks
    if appendOk then
      Except.ok (RelayEvent.append
          (captureExchange ts inbound body
            (if upstreamStatus = 0 then 0 else upstreamStatus)) ::
        (if resClosed then [] else
          [RelayEvent.writeHead (if upstreamStatus = 0 then 500 else upstreamStatus)
             upstreamHeaders,
           RelayEvent.writeBody body]))
    else Except.error "appendFileSync failed"
  else
    Except.ok (if resClosed then [] else
      [RelayEvent.writeHead (if upstreamStatus = 0 then 500 else upstreamStatus)
         upstreamHeaders,
       RelayEvent.pipeUpstream])

/-- The capture-log lines appended by a run of the `proxyRes` handler. -/
def appendedRecords (events : List RelayEvent) : List ExchangeRecord :=
  events.filterMap fun e =>
    match e with
    | RelayEvent.append rec => some rec
    | _ => none

/-! ## Upstream Forwarder error handling (mcp-server.ts lines 134-151) -/

/-- The JSON error body `{ error: "Proxy error", details: err.message }`
written by the proxy `error` handler (line 145). -/
structure ProxyErrorBody where
  error : String
  details : String
deriving DecidableEq, Repr

/-- Outcome of the proxy `error` handler. -/
inductive ProxyErrorOutcome where
  | responded (status : Nat) (contentType : String) (body : ProxyErrorBody)
  | skippedClosed
  | loggedOnly
deriving DecidableEq, Repr

/-- The `error` hook (lines 134-151): a registered handler, so the network
error never propagates as a crash.  For an HTTP exchange (`res` an
`http.ServerResponse`) that is not yet closed it writes status 500 with a
JSON body carrying the error message; a closed response is left alone; a
raw socket (`res` a `net.Socket`) only gets the error logged. -/
def proxyErrorHandler (isServerResponse : Bool) (resClosed : Bool)
    (errMessage : String) : ProxyErrorOutcome :=
  if isServerResponse then
    if resClosed then ProxyErrorOutcome.skippedClosed
    else ProxyErrorOutcome.responded 500 "application/json"
      { error := "Proxy error", details := errMessage }
  else ProxyErrorOutcome.loggedOnly

/-! ## Contract Validator and Response Synthesizer

The validation/synthesis pipeline reached through `api.handleRequest`
(line 160) lives in the external `openapi-backend` package, not in this
repository's sources; it is modelled from the spec (sections 4.2 and 4.3).
The handlers registered on it (`notFound`, `validationFail`, `mock`,
lines 48-67) are embedded from the source. -/

/-- A segment of an operation's path template: a literal, or a named
parameter segment that binds any one inbound segment. -/
inductive Seg where
  | lit (s : String)
  | param (name : String)
deriving DecidableEq, Repr

/-- Modelled from the spec: one contract `Operation` — a (method, path
template) entry with its operation identifier, required query parameters,
and documented example responses `(status, body)`. -/
structure Operation where
  operationId : String
  method : String
  segs : List Seg
  requiredQuery : List String
  examples : List (Nat × String)
deriving DecidableEq, Repr

/-- A loaded contract: the immutable list of operations. -/
structure Contract where
  ops : List Operation
deriving DecidableEq, Repr

/-- An inbound `/api` request as the validator sees it: method, path
segments, and the keys of the query string. -/
structure ApiRequest where
  method : String
  pathSegs : List String
  queryKeys : List String
deriving DecidableEq, Repr

/-- One field-level validation error: field path plus human-readable
reason (spec section 4.2). -/
structure FieldError where
  field : String
  reason : String
deriving DecidableEq, Repr

/-- Modelled from the spec: structural matching of a path template against
the inbound path segments — literals must be equal, parameter segments bind
any one segment, lengths must agree. -/
def segsMatch : List Seg → List String → Bool
  | [], [] => true
  | Seg.lit s :: ts, p :: ps => s == p && segsMatch ts ps
  | Seg.param _ :: ts, _ :: ps => segsMatch ts ps
  | _, _ => false

/-- The required query parameters of `op` that are absent from the request:
one violated constraint per missing parameter. -/
def missingRequired (op : Operation) (req : ApiRequest) : List String :=
  op.requiredQuery.filter fun q => !(req.queryKeys.contains q)

/-- Modelled from the spec: `ValidationOutcome`, the tagged variant
{Matched, NotFound, ValidationFailed} of section 3. -/
inductive ValidationOutcome where
  | matched (op : Operation)
  | notFound
  | validationFailed (errors : List FieldError)
deriving DecidableEq, Repr

/-- Modelled from the spec: the Contract Validator's
`match(method, path, query, ...)` (section 4.2) — find the operation whose
method and path template match; `NotFound` when none does;
`ValidationFailed` with one entry (field path + reason) per missing
required query parameter; otherwise `Matched`. Pure and deterministic. -/
def matchRequest (c : Contract) (req : ApiRequest) : ValidationOutcome :=
  match c.ops.find? (fun op => op.method == req.method && segsMatch op.segs req.pathSegs) with
  | none => ValidationOutcome.notFound
  | some op =>
    match missingRequired op req with
    | [] => ValidationOutcome.matched op
    | missing =>
      ValidationOutcome.validationFailed
        (missing.map fun q => { field := q, reason := "required query parameter missing" })

/-- The body of a handler response, as the typed JSON shapes the source
produces: `{error: ...}`, `{errors: [...]}`, or a synthesized mock body. -/
inductive ResBody where
  | errMsg (error : String)
  | errList (errors : List FieldError)
  | mockBody (body : String)
deriving DecidableEq, Repr

/-- Modelled from the spec: `api.mockResponseForOperation(operationId)`
(section 4.3) — look up the operation by identifier and deterministically
pick the documented example with the lowest status; `none` when the
operation is unknown or documents no example. -/
def mockResponseForOperation (c : Contract) (opId : String) : Option (Nat × String) :=
  match c.ops.find? (fun op => op.operationId == opId) with
  | none => none
  | some op =>
    op.examples.foldl
      (fun acc e =>
        match acc with
        | none => some e
        | some a => if e.1 < a.1 then some e else acc)
      none

/-- The registered `mock` handler (lines 55-66): synthesize from
`mockResponseForOperation (c.operation.operationId)`; status defaults to
200 and the body to a fixed error object when no mock response exists. -/
def mockHandler (c : Contract) (opId : String) : Nat × ResBody :=
  match mockResponseForOperation c opId with
  | some sb => (sb.1, ResBody.mockBody sb.2)
  | none => (200, ResBody.errMsg "Mock body not found")

/-- The `/api` mock-mode pipeline: `api.handleRequest` dispatches the
validation outcome to the registered handlers — `notFound` (lines 51-52)
answers 404 with the fixed body, `validationFail` (lines 53-54) answers
400 with `{errors: c.validation.errors}`, and a match invokes the `mock`
handler. -/
def handleApiRequest (c : Contract) (req : ApiRequest) : Nat × ResBody :=
  match matchRequest c req with
  | ValidationOutcome.notFound => (404, ResBody.errMsg "Path not found in specification")
  | ValidationOutcome.validationFailed errs => (400, ResBody.errList errs)
  | ValidationOutcome.matched op => mockHandler c op.operationId

/-- Whether `needle` occurs as a contiguous substring of `hay`; used to
state whether an error body names a path. -/
def subList (needle : List Char) : List Char → Bool
  | [] => needle.isPrefixOf []
  | h :: t => needle.isPrefixOf (h :: t) || subList needle t

/-- String-level wrapper for `subList`. -/
def strContains (hay needle : String) : Bool := subList needle.data hay.data

/-- A sample inbound request used by concrete witnesses. -/
def sampleReq : CaptureReq :=
  { method := "POST"
    originalUrl := "/api/v3/company/42/invoice"
    headers := [("authorization", "Bearer caller")]
    body := "\x7b\x7d" }


/-- A concrete contract operation used by witnesses: the spec's example
`GET /v3/company/{id}/customer` with documented 200 example
`{"Customer":[]}`. -/
def listCustomersOp : Operation :=
  { operationId := "ListCustomers"
    method := "GET"
    segs := [Seg.lit "v3", Seg.lit "company", Seg.param "companyId", Seg.lit "customer"]
    requiredQuery := []
    examples := [(200, "\x7b\"Customer\":[]\x7d")] }

/-- A concrete contract operation with required query parameters, used by
validation-failure witnesses. -/
def companyQueryOp : Operation :=
  { operationId := "CompanyQuery"
    method := "GET"
    segs := [Seg.lit "v3", Seg.lit "company", Seg.param "companyId", Seg.lit "query"]
    requiredQuery := ["query", "minorversion"]
    examples := [(200, "\x7b\"QueryResponse\":\x7b\x7d\x7d")] }

/-- A concrete loaded contract for witnesses and counterexamples. -/
def sampleContract : Contract := { ops := [listCustomersOp, companyQueryOp] }

/-- A request to an undocumented path (`/api/v3/company/42/invoice`). -/
def invoiceRequest : ApiRequest :=
  { method := "GET", pathSegs := ["v3", "company", "42", "invoice"], queryKeys := [] }

/-- A request matching `companyQueryOp` but missing its required `query`
parameter. -/
def queryRequest : ApiRequest :=
  { method := "GET", pathSegs := ["v3", "company", "7", "query"],
    queryKeys := ["minorversion"] }

/-- Two distinct requests that match the same operation
(`listCustomersOp`), differing in the bound path parameter. -/
def custRequestA : ApiRequest :=
  { method := "GET", pathSegs := ["v3", "company", "1", "customer"], queryKeys := [] }

/-- Companion to `custRequestA` with a different company identifier. -/
def custRequestB : ApiRequest :=
  { method := "GET", pathSegs := ["v3", "company", "2", "customer"], queryKeys := [] }


/-! ## Theorems -/

/-- C1: in capture mode, for every completed upstream exchange (an HTTP
response always carries a truthy status code), exactly one line is appended
to the capture log, the recorded `res.body` string is byte-identical to the
body relayed to the caller (both are the concatenation of the buffered
upstream chunks), and the record's `req.method` and `req.url` equal the
original inbound request's method and original URL. -/
theorem capture_records_relayed_exchange
    (ts : String) (inbound : CaptureReq) (upstreamStatus : Nat)
    (upstreamHeaders : List (String × String)) (chunks : List String)
    (resClosed : Bool) (h : upstreamStatus ≠ 0) :
    ∃ events r,
      proxyResHandler "capture" ts inbound upstreamStatus upstreamHeaders
          chunks resClosed true = Except.ok events ∧
      appendedRecords events = [r] ∧
      r.reqMethod = inbound.method ∧
      r.reqUrl = inbound.originalUrl ∧
      r.resBody = String.join chunks ∧
      r.resStatus = upstreamStatus ∧
      ∀ b, RelayEvent.writeBody b ∈ events → b = r.resBody := by
  refine ⟨RelayEvent.append (captureExchange ts inbound (String.join chunks) upstreamStatus) ::
      (if resClosed then [] else
        [RelayEvent.writeHead upstreamStatus upstreamHeaders,
         RelayEvent.writeBody (String.join chunks)]),
    captureExchange ts inbound (String.join chunks) upstreamStatus,
    ?_, ?_, rfl, rfl, rfl, rfl, ?_⟩
  · simp [proxyResHandler, h]
  · cases resClosed <;> simp [appendedRecords, captureExchange]
  · cases resClosed <;> simp [captureExchange]

/-- Witness for C1 at a concrete exchange: upstream 200 with body chunks
reassembling to the string relayed to the caller. -/
theorem capture_records_relayed_exchange_witness :
    (200 : Nat) ≠ 0 ∧
    ∃ events r,
      proxyResHandler "capture" "2026-10-12T00:00:00.000Z" sampleReq 200
          [("content-type", "application/json")] ["\x7b\"ok\":", "true\x7d"] false true
        = Except.ok events ∧
      appendedRecords events = [r] ∧
      r.reqMethod = sampleReq.method ∧
      r.reqUrl = sampleReq.originalUrl ∧
      r.resBody = String.join ["\x7b\"ok\":", "true\x7d"] ∧
      r.resStatus = 200 ∧
      ∀ b, RelayEvent.writeBody b ∈ events → b = r.resBody :=
  ⟨by decide,
   capture_records_relayed_exchange "2026-10-12T00:00:00.000Z" sampleReq 200
     [("content-type", "application/json")] ["\x7b\"ok\":", "true\x7d"] false (by decide)⟩

/-- C10: in capture mode, on a truthy upstream status code the append of the
exchange record is the first effect of the `end` handler — strictly before
the buffered status, headers and body are written to the caller — and when
the caller's response is already closed the record is still written while no
response bytes are sent. -/
theorem capture_append_precedes_relay
    (ts : String) (inbound : CaptureReq) (upstreamStatus : Nat)
    (upstreamHeaders : List (String × String)) (chunks : List String)
    (resClosed : Bool) (h : upstreamStatus ≠ 0) :
    ∃ r rest,
      proxyResHandler "capture" ts inbound upstreamStatus upstreamHeaders
          chunks resClosed true = Except.ok (RelayEvent.append r :: rest) ∧
      (∀ r2, RelayEvent.append r2 ∉ rest) ∧
      (resClosed = true → rest = []) ∧
      (resClosed = false →
        rest = [RelayEvent.writeHead upstreamStatus upstreamHeaders,
                RelayEvent.writeBody (String.join chunks)]) := by
  refine ⟨captureExchange ts inbound (String.join chunks) upstreamStatus,
    if resClosed then [] else
      [RelayEvent.writeHead upstreamStatus upstreamHeaders,
       RelayEvent.writeBody (String.join chunks)],
    ?_, ?_, ?_, ?_⟩
  · simp [proxyResHandler, h]
  · cases resClosed <;> simp
  · cases resClosed <;> simp
  · cases resClosed <;> simp

/-- Witness for C10 at a concrete exchange whose caller response is already
closed: the record is still appended and no write events follow. -/
theorem capture_append_precedes_relay_witness :
    (503 : Nat) ≠ 0 ∧
    ∃ r rest,
      proxyResHandler "capture" "2026-10-12T01:00:00.000Z" sampleReq 503
          [] ["upstream unavailable"] true true
        = Except.ok (RelayEvent.append r :: rest) ∧
      (∀ r2, RelayEvent.append r2 ∉ rest) ∧
      (true = true → rest = []) ∧
      (true = false →
        rest = [RelayEvent.writeHead 503 [],
                RelayEvent.writeBody (String.join ["upstream unavailable"])]) :=
  ⟨by decide,
   capture_append_precedes_relay "2026-10-12T01:00:00.000Z" sampleReq 503
     [] ["upstream unavailable"] true (by decide)⟩

/-- C4 (divergence): when `fs.appendFileSync` inside `captureExchange`
fails, the exception propagates out of the `end` handler before the guarded
`res.writeHead`/`res.end` calls are reached, so the in-flight response is
NOT delivered to the caller — the handler run aborts with the error and
produces no relay events at all. -/
theorem append_failure_aborts_relay :
    proxyResHandler "capture" "2026-10-12T02:00:00.000Z" sampleReq 200
        [("content-type", "application/json")] ["\x7b\"ok\":true\x7d"] false false
      = Except.error "appendFileSync failed" ∧
    ∀ events,
      proxyResHandler "capture" "2026-10-12T02:00:00.000Z" sampleReq 200
          [("content-type", "application/json")] ["\x7b\"ok\":true\x7d"] false false
        ≠ Except.ok events := by
  refine ⟨by simp [proxyResHandler], ?_⟩
  intro events hev
  simp [proxyResHandler] at hev

/-- C5: a network-level failure reaching the upstream origin (which occurs
before any response bytes, so the caller's `http.ServerResponse` exists and
is not closed) is answered by the registered `error` hook — a total
handler, so the failure never escapes as a crash — with a 5xx status and a
JSON body carrying the underlying cause. -/
theorem proxy_error_yields_5xx_json
    (errMessage : String) (isServerResponse resClosed : Bool)
    (hsr : isServerResponse = true) (hopen : resClosed = false) :
    ∃ status body,
      proxyErrorHandler isServerResponse resClosed errMessage
        = ProxyErrorOutcome.responded status "application/json" body ∧
      500 ≤ status ∧ status < 600 ∧
      body.error = "Proxy error" ∧ body.details = errMessage := by
  subst hsr; subst hopen
  exact ⟨500, { error := "Proxy error", details := errMessage },
    by simp [proxyErrorHandler], by omega, by omega, rfl, rfl⟩

/-- Witness for C5 at a concrete connection-refused failure. -/
theorem proxy_error_yields_5xx_json_witness :
    (true : Bool) = true ∧ (false : Bool) = false ∧
    ∃ status body,
      proxyErrorHandler true false "connect ECONNREFUSED 10.0.0.1:443"
        = ProxyErrorOutcome.responded status "application/json" body ∧
      500 ≤ status ∧ status < 600 ∧
      body.error = "Proxy error" ∧
      body.details = "connect ECONNREFUSED 10.0.0.1:443" :=
  ⟨rfl, rfl,
   proxy_error_yields_5xx_json "connect ECONNREFUSED 10.0.0.1:443" true false rfl rfl⟩

/-- C6: for every forwarded request (all of which arrive under the `/api`
mount, hence with the `/api` prefix), the upstream path is exactly the
inbound path with the leading `/api` removed — prepending `/api` to the
rewritten path reconstructs the inbound path — and whenever a bearer
credential is configured (a truthy, hence nonempty, `QBO_TOKEN`) the
upstream `Authorization` header is `Bearer <token>`, regardless of any
caller-supplied value. -/
theorem forwarded_path_and_authorization
    (p : String) (hp : "/api".data.isPrefixOf p.data = true) :
    String.mk ("/api".data ++ (pathRewrite p).data) = p ∧
    ∀ t callerAuth, t ≠ "" →
      upstreamAuthorization (some t) callerAuth = some ("Bearer " ++ t) := by
  constructor
  · have hpre : "/api".data <+: p.data := List.isPrefixOf_iff_prefix.mp hp
    have hdrop : "/api".data ++ p.data.drop "/api".data.length = p.data :=
      List.prefix_iff_eq_append.mp hpre
    unfold pathRewrite
    rw [if_pos hp]
    show String.mk ("/api".data ++ p.data.drop "/api".data.length) = p
    rw [hdrop]
  · intro t callerAuth ht
    simp [upstreamAuthorization, ht]

/-- Witness for C6 at a concrete inbound path and nonempty configured
token, with a conflicting caller-supplied Authorization header. -/
theorem forwarded_path_and_authorization_witness :
    "/api".data.isPrefixOf "/api/v3/company/9/customer".data = true ∧
    ("tok123" : String) ≠ "" ∧
    String.mk ("/api".data ++ (pathRewrite "/api/v3/company/9/customer").data)
      = "/api/v3/company/9/customer" ∧
    upstreamAuthorization (some "tok123") (some "Bearer caller-supplied")
      = some ("Bearer " ++ "tok123") :=
  ⟨by decide, by decide,
   (forwarded_path_and_authorization "/api/v3/company/9/customer" (by decide)).1,
   (forwarded_path_and_authorization "/api/v3/company/9/customer" (by decide)).2
     "tok123" (some "Bearer caller-supplied") (by decide)⟩


/-- C2 (counterexample): with the mode value `"banana"` neither the proxy
middleware nor the mock handler is mounted at `/api` (lines 98 and 158 both
test for the three known modes only), so no inbound `/api` request is
answered by either the Synthesizer or the Forwarder — refuting "in every
mode, exactly one of the two produces the response". -/
theorem single_handler_fails_on_unknown_mode :
    apiHandler "banana" = none ∧ middlewareStack "banana" = [] := by decide

/-- C2 (amended): never do both components handle a request — the answering
component is the head of the mounted middleware stack, the proxy middleware
being registered first and consuming every request it sees.  Exactly one
component handles when the mode is one of `mock`, `proxy`, `capture`
(the Forwarder in proxy and capture modes, the Synthesizer in mock mode);
for any other mode value neither is mounted and the framework's default
handler answers. -/
theorem api_request_single_handler (mode : String) :
    (apiHandler mode = some Handler.forwarder ∧ (mode = "proxy" ∨ mode = "capture")) ∨
    (apiHandler mode = some Handler.synthesizer ∧ mode = "mock") ∨
    (apiHandler mode = none ∧ mode ≠ "mock" ∧ mode ≠ "proxy" ∧ mode ≠ "capture") := by
  by_cases h1 : mode = "proxy"
  · exact Or.inl ⟨by subst h1; decide, Or.inl h1⟩
  by_cases h2 : mode = "capture"
  · exact Or.inl ⟨by subst h2; decide, Or.inr h2⟩
  by_cases h3 : mode = "mock"
  · exact Or.inr (Or.inl ⟨by subst h3; decide, h3⟩)
  · refine Or.inr (Or.inr ⟨?_, h3, h1, h2⟩)
    simp [apiHandler, middlewareStack, mountForwarder, mountSynthesizer, h1, h2, h3]

/-- C3 (counterexample): the configured mode value `"Sandbox"` lowercases to
`"sandbox"`, which is none of the three known modes; the server then mounts
no `/api` handler at all, unlike mock mode, where the validating Synthesizer
answers — refuting "unrecognized values behave as mock". -/
theorem unknown_mode_not_mock :
    apiHandler (MODE (some "Sandbox")) = none ∧
    apiHandler (MODE none) = some Handler.synthesizer ∧
    apiHandler (MODE (some "Sandbox")) ≠ apiHandler (MODE none) := by decide

/-- C3 (amended): a falsy mode value — unset or set-but-empty — defaults to
`mock`, and mode values are lowercased, so case variants of the three modes
are recognized; but a truthy (nonempty) configured value that is not
`mock`, `proxy` or `capture` after lowercasing leaves no `/api` handler
mounted, so such requests are neither validated nor answered with
synthesized responses.  The general clause ranges over ASCII values, where
`strToLower` agrees with JavaScript lowercasing. -/
theorem mode_defaulting_and_fallthrough :
    MODE none = "mock" ∧
    MODE (some "") = "mock" ∧
    apiHandler (MODE none) = some Handler.synthesizer ∧
    apiHandler (MODE (some "")) = some Handler.synthesizer ∧
    MODE (some "CAPTURE") = "capture" ∧
    ∀ envValue : String,
      envValue ≠ "" →
      (∀ ch ∈ envValue.data, ch.toNat < 128) →
      strToLower envValue ≠ "mock" → strToLower envValue ≠ "proxy" →
      strToLower envValue ≠ "capture" →
      apiHandler (MODE (some envValue)) = none := by
  refine ⟨by decide, by decide, by decide, by decide, by decide, ?_⟩
  intro envValue hne hascii h1 h2 h3
  have hm : MODE (some envValue) = strToLower envValue := by
    unfold MODE
    show strToLower (if envValue = "" then "mock" else envValue) = strToLower envValue
    rw [if_neg hne]
  rw [hm]
  simp [apiHandler, middlewareStack, mountForwarder, mountSynthesizer, h1, h2, h3]

/-- Witness for the amended C3 at the concrete nonempty ASCII unrecognized
value `"replay"`. -/
theorem mode_defaulting_and_fallthrough_witness :
    apiHandler (MODE (some "replay")) = none :=
  mode_defaulting_and_fallthrough.2.2.2.2.2 "replay" (by decide) (by decide)
    (by decide) (by decide) (by decide)


/-- C7 (counterexample): in mock mode an unmatched path is answered with
status 404 and the fixed structured body
`{error: "Path not found in specification"}` — a body that does not name
the unmatched path (it does not even contain the segment `invoice` of the
request `/api/v3/company/42/invoice`). -/
theorem not_found_body_omits_path :
    handleApiRequest sampleContract invoiceRequest
      = (404, ResBody.errMsg "Path not found in specification") ∧
    strContains "Path not found in specification" "invoice" = false ∧
    strContains "Path not found in specification" "v3/company/42/invoice" = false := by
  decide

/-- C7 (amended): for every request whose path matches no operation in the
loaded contract, mock mode answers 404 with the structured JSON error body
`{error: "Path not found in specification"}` — a fixed message that does
not include the specific unmatched path. -/
theorem unmatched_path_yields_404_fixed_body
    (c : Contract) (req : ApiRequest)
    (h : matchRequest c req = ValidationOutcome.notFound) :
    handleApiRequest c req = (404, ResBody.errMsg "Path not found in specification") := by
  simp [handleApiRequest, h]

/-- Witness for the amended C7 at a concrete request to an unknown path. -/
theorem unmatched_path_yields_404_fixed_body_witness :
    handleApiRequest sampleContract
        { method := "GET", pathSegs := ["v9", "ping"], queryKeys := [] }
      = (404, ResBody.errMsg "Path not found in specification") :=
  unmatched_path_yields_404_fixed_body sampleContract
    { method := "GET", pathSegs := ["v9", "ping"], queryKeys := [] } (by decide)

/-- C8: when a request matches an operation's path template but violates
the contract, mock mode answers 400 with a JSON body carrying one
validation-error entry per violated constraint: the error list has exactly
one entry (field path plus human-readable reason) for each missing required
parameter, and nothing else. -/
theorem validation_failure_yields_400_itemized
    (c : Contract) (req : ApiRequest) (op : Operation)
    (hfind : c.ops.find?
        (fun o => o.method == req.method && segsMatch o.segs req.pathSegs) = some op)
    (hmiss : missingRequired op req ≠ []) :
    ∃ errs,
      handleApiRequest c req = (400, ResBody.errList errs) ∧
      errs.length = (missingRequired op req).length ∧
      (∀ q ∈ missingRequired op req,
        ∃ e ∈ errs, e.field = q ∧ e.reason = "required query parameter missing") ∧
      ∀ e ∈ errs, e.field ∈ missingRequired op req := by
  refine ⟨(missingRequired op req).map
      (fun q => { field := q, reason := "required query parameter missing" }),
    ?_, by simp, ?_, ?_⟩
  · unfold handleApiRequest matchRequest
    rw [hfind]
    cases hm : missingRequired op req with
    | nil => exact absurd hm hmiss
    | cons a as => simp [hm]
  · intro q hq
    exact ⟨_, List.mem_map_of_mem _ hq, rfl, rfl⟩
  · intro e he
    obtain ⟨q, hq, rfl⟩ := List.mem_map.mp he
    exact hq

/-- Witness for C8 at a concrete request missing its required `query`
parameter. -/
theorem validation_failure_yields_400_itemized_witness :
    ∃ errs,
      handleApiRequest sampleContract queryRequest = (400, ResBody.errList errs) ∧
      errs.length = (missingRequired companyQueryOp queryRequest).length ∧
      (∀ q ∈ missingRequired companyQueryOp queryRequest,
        ∃ e ∈ errs, e.field = q ∧ e.reason = "required query parameter missing") ∧
      ∀ e ∈ errs, e.field ∈ missingRequired companyQueryOp queryRequest :=
  validation_failure_yields_400_itemized sampleContract queryRequest companyQueryOp
    (by decide) (by decide)

/-- C9: within a single loaded contract, mock-mode synthesis is a
deterministic function of the matched operation: any two requests matching
operations with the same operation identifier — in particular repeated
identical requests — receive byte-identical synthesized responses (same
status, same body). -/
theorem mock_deterministic_per_operation
    (c : Contract) (r1 r2 : ApiRequest) (op1 op2 : Operation)
    (h1 : matchRequest c r1 = ValidationOutcome.matched op1)
    (h2 : matchRequest c r2 = ValidationOutcome.matched op2)
    (hop : op1.operationId = op2.operationId) :
    handleApiRequest c r1 = handleApiRequest c r2 := by
  simp [handleApiRequest, h1, h2, hop]

/-- Witness for C9: two distinct requests bound to the same operation get
the same synthesized response. -/
theorem mock_deterministic_per_operation_witness :
    matchRequest sampleContract custRequestA
      = ValidationOutcome.matched listCustomersOp ∧
    matchRequest sampleContract custRequestB
      = ValidationOutcome.matched listCustomersOp ∧
    handleApiRequest sampleContract custRequestA
      = handleApiRequest sampleContract custRequestB :=
  ⟨by decide, by decide,
   mock_deterministic_per_operation sampleContract custRequestA custRequestB
     listCustomersOp listCustomersOp (by decide) (by decide) rfl⟩

end QbMcp
